import Mathlib

/-!
Shallow embedding of `src/index.js` (class `FormWatcher`) for verification.

The tracker keeps three insertion-ordered maps (JS `Map`), modelled here as
association lists `List (String × Snapshot)` together with the JS `Map`
operations `get` / `has` / `set` / `delete` (`mget`, `mhas`, `mset`, `mdel`).
DOM fields are modelled by the record `Field`, carrying exactly the pieces of
element state the source reads: `dataset.formWatcherId`, `id`, `tagName`,
`type`, `name`, `value`, `checked`, `multiple`, the selected option values of
a multi-select, and (as an oracle for CSS matching) the list of selectors the
element matches.  `crypto.randomUUID()` is modelled by an explicit supply of
fresh strings threaded through the state.
-/

namespace FormWatcher

/-- A snapshot value: a plain string for ordinary fields, or a list of the
selected option values for a multi-select (`src/index.js:110-116`). -/
inductive Value where
  | scalar : String → Value
  | seq : List String → Value
deriving DecidableEq, Repr

/-- The snapshot stored per field id (`formatFieldState`, `src/index.js:106-119`).
The source also stores the DOM element reference in the snapshot; it is never
consulted by any comparison or diff, so it is omitted here. -/
structure Snapshot where
  value : Value
  checked : Option Bool
deriving DecidableEq, Repr

/-- Model of a DOM form field, restricted to the element state the source
reads.  `matchesSelectors` is the set of CSS selectors the element matches
(an oracle for `field.matches(selector)`). -/
structure Field where
  formWatcherId : Option String
  id : String
  tagName : String
  type : String
  name : String
  value : String
  checked : Bool
  multiple : Bool
  selectedValues : List String
  matchesSelectors : List String
deriving DecidableEq, Repr

/-- JS `a || b` on strings: the empty string is falsy. -/
def jsOr (a b : String) : String := if a = "" then b else a

/-- ASCII lowering of one character. -/
def lowerAsciiChar (c : Char) : Char :=
  if 'A' ≤ c ∧ c ≤ 'Z' then Char.ofNat (c.toNat + 32) else c

/-- `String.prototype.toLowerCase` restricted to ASCII, which covers every
tag name the source compares (`input`, `select`, `textarea`). -/
def toLowerCase (s : String) : String :=
  String.mk (s.data.map lowerAsciiChar)

/-- `Map.prototype.get`: first binding of the key, if any. -/
def mget : List (String × Snapshot) → String → Option Snapshot
  | [], _ => none
  | p :: rest, k => if p.1 = k then some p.2 else mget rest k

/-- `Map.prototype.has`. -/
def mhas (m : List (String × Snapshot)) (k : String) : Bool :=
  (mget m k).isSome

/-- `Map.prototype.set`: replace an existing binding in place, else append. -/
def mset : List (String × Snapshot) → String → Snapshot → List (String × Snapshot)
  | [], k, v => [(k, v)]
  | p :: rest, k, v => if p.1 = k then (k, v) :: rest else p :: mset rest k v

/-- `Map.prototype.delete`: remove the binding of the key. -/
def mdel : List (String × Snapshot) → String → List (String × Snapshot)
  | [], _ => []
  | p :: rest, k => if p.1 = k then rest else p :: mdel rest k

/-- The mutable state of one `FormWatcher` instance (`src/index.js:30-43`):
the three maps, the stored last triggering event (modelled by a numeric
event id), the configured exclusion selectors, and the supply of fresh
UUID strings standing in for `crypto.randomUUID()`. -/
structure WatcherState where
  excludeSelectors : List String
  originalState : List (String × Snapshot)
  currentState : List (String × Snapshot)
  removedFields : List (String × Snapshot)
  lastEvent : Option Nat
  uuidSupply : List String
deriving DecidableEq, Repr

/-- `getFieldId` (`src/index.js:64-66`):
`field.dataset.formWatcherId || field.id || ''`. -/
def getFieldId (f : Field) : String :=
  jsOr (jsOr (f.formWatcherId.getD "") f.id) ""

/-- `valuesAreEqual` (`src/index.js:69-75`): arrays compare by length plus
element-wise strict equality; anything else by strict equality (an array is
never strictly equal to a string). -/
def valuesAreEqual : Value → Value → Bool
  | .seq l1, .seq l2 => l1.length == l2.length && (l1.zip l2).all (fun p => p.1 == p.2)
  | .scalar a, .scalar b => a == b
  | _, _ => false

/-- `isExcluded` (`src/index.js:90-92`): a field is excluded when it matches
one of the configured selectors, or its resolved id equals a selector with a
leading `#` stripped. -/
def isExcluded (excludeSelectors : List String) (f : Field) : Bool :=
  excludeSelectors.any (fun selector =>
    f.matchesSelectors.contains selector ||
      getFieldId f == (if selector.startsWith "#" then selector.drop 1 else selector))

/-- `getOrSetFieldID` (`src/index.js:94-104`): resolve the id; when empty,
draw a fresh UUID from the supply, build `name-uuid` (or `type-uuid` when the
field has no name) and persist it on the field's dataset. Returns the id, the
(possibly updated) field and the remaining supply. -/
def getOrSetFieldID (supply : List String) (f : Field) : String × Field × List String :=
  let id := getFieldId f
  if id = "" then
    let uuid := supply.headD ""
    let newId := if f.name ≠ "" then f.name ++ "-" ++ uuid else f.type ++ "-" ++ uuid
    (newId, { f with formWatcherId := some newId }, supply.tail)
  else (id, f, supply)

/-- `formatFieldState` (`src/index.js:106-119`): `checked` is present exactly
for checkboxes and radios; the value of a multi-select is the list of its
selected option values, otherwise `field.value || ''`. -/
def formatFieldState (f : Field) : Snapshot :=
  { value :=
      if toLowerCase f.tagName = "select" ∧ f.multiple then Value.seq f.selectedValues
      else Value.scalar (jsOr f.value "")
  , checked := if f.type = "checkbox" ∨ f.type = "radio" then some f.checked else none }

/-- `updateCurrentState` (`src/index.js:148-152`): resolve (or mint) the id
and overwrite the live-map entry with a fresh snapshot.  The debounced diff
request it issues is modelled separately by `debounceExec`. -/
def updateCurrentState (st : WatcherState) (f : Field) : WatcherState :=
  let r := getOrSetFieldID st.uuidSupply f
  { st with
      currentState := mset st.currentState r.1 (formatFieldState r.2.1)
    , uuidSupply := r.2.2 }

/-- `initializeState` (`src/index.js:78-87`): for every non-excluded field of
the form, store the same snapshot in both the baseline and the live map. -/
def initializeState (st : WatcherState) : List Field → WatcherState
  | [] => st
  | f :: rest =>
    if isExcluded st.excludeSelectors f then initializeState st rest
    else
      let r := getOrSetFieldID st.uuidSupply f
      initializeState
        { st with
            originalState := mset st.originalState r.1 (formatFieldState r.2.1)
          , currentState := mset st.currentState r.1 (formatFieldState r.2.1)
          , uuidSupply := r.2.2 } rest

/-- The `input`-event listener (`src/index.js:138-144`): for a non-excluded
textarea or text input, store the triggering event and re-snapshot the
target. -/
def handleInputEvent (st : WatcherState) (ev : Nat) (target : Field) : WatcherState :=
  if !(isExcluded st.excludeSelectors target) &&
      (toLowerCase target.tagName == "textarea" ||
        (toLowerCase target.tagName == "input" && target.type == "text")) then
    updateCurrentState { st with lastEvent := some ev } target
  else st

/-- The MutationObserver added-node path for one trackable field
(`src/index.js:159-167`): skip excluded fields, otherwise exactly
`updateCurrentState`.  Note that this path does not touch `lastEvent`. -/
def handleAddedField (st : WatcherState) (f : Field) : WatcherState :=
  if isExcluded st.excludeSelectors f then st else updateCurrentState st f

/-- The MutationObserver removed-node path for one trackable field
(`src/index.js:172-184`): skip excluded fields; when the resolved id is
non-empty and live, move the live snapshot into `removedFields` and delete
it from the live map; otherwise leave the state unchanged. -/
def handleRemovedField (st : WatcherState) (f : Field) : WatcherState :=
  if isExcluded st.excludeSelectors f then st
  else
    let id := getFieldId f
    if id = "" then st
    else
      match mget st.currentState id with
      | some snap =>
          { st with
              removedFields := mset st.removedFields id snap
            , currentState := mdel st.currentState id }
      | none => st

/-- The body of the first loop of `checkForChanges` (`src/index.js:201-223`)
for one live entry: `true` iff this entry makes the loop set `hasChanges`. -/
def liveEntryChanged (st : WatcherState) (p : String × Snapshot) : Bool :=
  match mget st.originalState p.1 with
  | none =>
    match mget st.removedFields p.1 with
    | some removedData =>
        !(valuesAreEqual removedData.value p.2.value) || removedData.checked != p.2.checked
    | none => true
  | some originalData =>
      !(valuesAreEqual originalData.value p.2.value) || originalData.checked != p.2.checked

/-- `checkForChanges` (`src/index.js:197-241`), return value only: the first
loop (with `break` = short-circuiting `any`) over the live map, then, only
when nothing was found, the scan for baseline ids missing from the live
map. -/
def checkForChanges (st : WatcherState) : Bool :=
  st.currentState.any (liveEntryChanged st) ||
    st.originalState.any (fun p => !(mhas st.currentState p.1))

/-- A record of `changes.added` / `changes.removed` (`src/index.js:266,289`):
`{ id, ...data }` restricted to the comparable parts of the snapshot. -/
structure FieldChange where
  id : String
  value : Value
  checked : Option Bool
deriving DecidableEq, Repr

/-- A record of `changes.reAdded` (`src/index.js:270-273`). -/
structure ReAddedChange where
  id : String
  value : Value
  checked : Option Bool
  previousValue : Value
  previousChecked : Option Bool
deriving DecidableEq, Repr

/-- A record of `changes.modified` (`src/index.js:278-282`). -/
structure ModifiedChange where
  id : String
  original : Snapshot
  current : Snapshot
deriving DecidableEq, Repr

/-- The `DiffResult` shape returned by `getChanges` (`src/index.js:254-259`). -/
structure Changes where
  added : List FieldChange
  removed : List FieldChange
  modified : List ModifiedChange
  reAdded : List ReAddedChange
deriving DecidableEq, Repr

/-- The first loop of `getChanges` (`src/index.js:262-284`): classify each
live entry as added, re-added (unconditionally, whenever the id is absent
from the baseline but present in `removedFields`), or modified. -/
def classifyLive (orig rem : List (String × Snapshot)) :
    List (String × Snapshot) → Changes
  | [] => { added := [], removed := [], modified := [], reAdded := [] }
  | (id, data) :: rest =>
    let ch := classifyLive orig rem rest
    match mget orig id with
    | none =>
      match mget rem id with
      | some removedData =>
          { ch with reAdded :=
              ⟨id, data.value, data.checked, removedData.value, removedData.checked⟩ :: ch.reAdded }
      | none => { ch with added := ⟨id, data.value, data.checked⟩ :: ch.added }
    | some originalData =>
      if !(valuesAreEqual originalData.value data.value) ||
          originalData.checked != data.checked then
        { ch with modified := ⟨id, originalData, data⟩ :: ch.modified }
      else ch

/-- The second loop of `getChanges` (`src/index.js:287-291`): every baseline
entry whose id is absent from the live map. -/
def removedList (cur : List (String × Snapshot)) :
    List (String × Snapshot) → List FieldChange
  | [] => []
  | (id, data) :: rest =>
    if mhas cur id then removedList cur rest
    else ⟨id, data.value, data.checked⟩ :: removedList cur rest

/-- `getChanges` (`src/index.js:253-294`). -/
def getChanges (st : WatcherState) : Changes :=
  { classifyLive st.originalState st.removedFields st.currentState with
      removed := removedList st.currentState st.originalState }

/-- `resetState` (`src/index.js:244-250`): clear the live map, then copy
every baseline entry into it (`{ ...data }` — a fresh snapshot object per
entry; snapshots are immutable values here, so the copy is the value
itself).  The baseline and removed maps are not written. -/
def resetState (st : WatcherState) : WatcherState :=
  { st with
      currentState := st.originalState.foldl (fun cur p => mset cur p.1 p.2) [] }

/-- The argument tuple `(hasChanges, this.getChanges(), this.lastEvent)`
passed to the configured `onFormChanged` callback at the end of
`checkForChanges` (`src/index.js:236-238`). -/
def callbackArgs (st : WatcherState) : Bool × Changes × Option Nat :=
  (checkForChanges st, getChanges st, st.lastEvent)

/-- A constructed instance (`src/index.js:20-52`).  When the target cannot be
resolved the constructor returns after `console.error`, before any of the
instance fields `originalState` / `currentState` / `removedFields` are
assigned: the instance exists but its maps are `undefined` (`inert`). -/
inductive Instance where
  | inert : Instance
  | active : WatcherState → Instance
deriving DecidableEq, Repr

/-- What the constructor produced and wired up (`src/index.js:20-52`):
the instance, whether `setupEventListeners` / `setupMutationObserver` ran,
and whether `console.error('Form not found')` was emitted. -/
structure ConstructResult where
  watcher : Instance
  eventListenersAttached : Bool
  mutationObserverAttached : Bool
  errorReported : Bool
deriving DecidableEq, Repr

/-- The constructor (`src/index.js:20-52`).  `resolvedForm` is the result of
resolving the target (`document.querySelector` or a direct element) to the
form's list of trackable fields; `none` models a target that resolves to no
element.  In that case the constructor logs and returns early: no listeners,
no observer, no map initialization, and it does not throw. -/
def construct (resolvedForm : Option (List Field)) (excludeSelectors : List String)
    (supply : List String) : ConstructResult :=
  match resolvedForm with
  | none =>
    { watcher := .inert
    , eventListenersAttached := false
    , mutationObserverAttached := false
    , errorReported := true }
  | some fields =>
    let st0 : WatcherState :=
      { excludeSelectors := excludeSelectors
      , originalState := []
      , currentState := []
      , removedFields := []
      , lastEvent := none
      , uuidSupply := supply }
    { watcher := .active (initializeState st0 fields)
    , eventListenersAttached := true
    , mutationObserverAttached := true
    , errorReported := false }

/-- Calling `checkForChanges()` on an instance.  On an inert instance
`this.currentState` is `undefined`, so the `for..of` at `src/index.js:201`
throws a `TypeError`; a thrown exception is modelled as `Except.error`. -/
def checkForChangesJS : Instance → Except String Bool
  | .inert => .error "TypeError: this.currentState is not iterable"
  | .active st => .ok (checkForChanges st)

/-- Calling `getChanges()` on an instance.  On an inert instance the
`for..of` at `src/index.js:262` throws a `TypeError`. -/
def getChangesJS : Instance → Except String Changes
  | .inert => .error "TypeError: this.currentState is not iterable"
  | .active st => .ok (getChanges st)

/-- Calling `resetState()` on an instance.  On an inert instance
`this.currentState.clear()` at `src/index.js:245` throws a `TypeError`. -/
def resetStateJS : Instance → Except String Instance
  | .inert => .error "TypeError: cannot read clear of undefined"
  | .active st => .ok (.active (resetState st))

/-- Whether a call completed normally (no exception). -/
def completedOk {α : Type} : Except String α → Bool
  | .ok _ => true
  | .error _ => false

/-- The debounce wrapper (`src/index.js:55-61`) run over a timeline of
trigger instants.  Each list element `(t, s)` is one call of the debounced
function at time `t`, with `s` the watcher state as of that trigger; the
list is ordered by time.  A call first cancels any pending timeout
(`clearTimeout`) and schedules a fresh one `delay` ms out, so the timeout
scheduled at `t` survives exactly when the next trigger (if any) happens no
earlier than `t + delay`.  The result lists the executions of the wrapped
`checkForChanges` as `(fire time, state it reads)` pairs: between a trigger
and its fire nothing else mutates the maps (single-threaded event loop), so
the surviving timeout at `t` reads state `s` at time `t + delay`. -/
def debounceExec (delay : Nat) : List (Nat × WatcherState) → List (Nat × WatcherState)
  | [] => []
  | [(t, s)] => [(t + delay, s)]
  | (t, s) :: (t2, s2) :: rest =>
    (if t + delay ≤ t2 then [(t + delay, s)] else []) ++
      debounceExec delay ((t2, s2) :: rest)

/-- The hypothesis of the debounce-collapse property: each trigger falls
strictly inside the debounce window opened by the previous one. -/
def gapsWithin (delay : Nat) : List (Nat × WatcherState) → Bool
  | [] => true
  | [_] => true
  | a :: b :: rest => decide (b.1 < a.1 + delay) && gapsWithin delay (b :: rest)

/-- The equality rule as §4.6 of the spec words it, for comparison with the
source's `valuesAreEqual`: both sequences of equal length with pairwise-equal
elements, or both scalars and equal. -/
def valueEqSpec : Value → Value → Prop
  | .seq l1, .seq l2 =>
      l1.length = l2.length ∧
        ∀ (i : Nat) (h1 : i < l1.length) (h2 : i < l2.length),
          l1.get ⟨i, h1⟩ = l2.get ⟨i, h2⟩
  | .scalar a, .scalar b => a = b
  | _, _ => False

/-! ### Concrete scenario states -/

/-- A text input with the given element id and value, matching no exclusion
selector. -/
def mkTextField (fid v : String) : Field :=
  { formWatcherId := none, id := fid, tagName := "input", type := "text", name := fid
  , value := v, checked := false, multiple := false, selectedValues := []
  , matchesSelectors := [] }

/-- The state of a freshly constructed watcher before `initializeState`,
with no exclusion selectors configured. -/
def emptyState : WatcherState :=
  { excludeSelectors := [], originalState := [], currentState := [], removedFields := []
  , lastEvent := none, uuidSupply := [] }

/-- C1 scenario: baseline has x↦"A", live was edited to x↦"B", and a field y
was removed earlier (so the removed map is non-empty). -/
def c1State : WatcherState :=
  { emptyState with
      originalState := [("x", ⟨Value.scalar "A", none⟩)]
    , currentState := [("x", ⟨Value.scalar "B", none⟩)]
    , removedFields := [("y", ⟨Value.scalar "C", none⟩)] }

/-- C2 scenario, step 0: a watcher constructed over a form holding one text
field with id "x" and value "A". -/
def c2St0 : WatcherState := initializeState emptyState [mkTextField "x" "A"]

/-- C2 scenario, step 1: the field is structurally removed. -/
def c2StRemoved : WatcherState := handleRemovedField c2St0 (mkTextField "x" "A")

/-- C2 scenario, step 2a: an element resolving to the same id is re-inserted
with value "B". -/
def c2StReB : WatcherState := handleAddedField c2StRemoved (mkTextField "x" "B")

/-- C2 scenario, step 2b: instead the element is re-inserted with value "A"
again. -/
def c2StReA : WatcherState := handleAddedField c2StRemoved (mkTextField "x" "A")

/-- C3 scenario: id "x" absent from the baseline, present in both the live
and the removed map with identical snapshots (a field added after
construction, removed, then re-inserted with the same value). -/
def c3State : WatcherState :=
  { emptyState with
      currentState := [("x", ⟨Value.scalar "A", none⟩)]
    , removedFields := [("x", ⟨Value.scalar "A", none⟩)] }

/-- C5 scenario, step 0: a watcher over one text field with id "x". -/
def c5St0 : WatcherState := initializeState emptyState [mkTextField "x" ""]

/-- C5 scenario: a user input event (event #7) edits field x to "hello",
then a new field y is structurally inserted, which triggers the next
debounced diff through the MutationObserver path. -/
def c5After : WatcherState :=
  handleAddedField (handleInputEvent c5St0 7 (mkTextField "x" "hello")) (mkTextField "y" "")

/-- C6 witness state: live differs from the baseline and the removed map is
non-empty. -/
def c6State : WatcherState :=
  { emptyState with
      originalState := [("x", ⟨Value.scalar "A", none⟩), ("y", ⟨Value.scalar "B", none⟩)]
    , currentState := [("x", ⟨Value.scalar "edited", none⟩)]
    , removedFields := [("y", ⟨Value.scalar "B", none⟩)] }

/-- C8 witness state: baseline has x and y, live keeps only y (modified),
so x is removed. -/
def c8State : WatcherState :=
  { emptyState with
      originalState := [("x", ⟨Value.scalar "A", none⟩), ("y", ⟨Value.scalar "B", none⟩)]
    , currentState := [("y", ⟨Value.scalar "B2", none⟩)] }

/-- A one-field watcher state whose field x holds the given value, used as
the per-trigger state payload in the debounce timeline. -/
def c9s (v : String) : WatcherState :=
  { emptyState with currentState := [("x", ⟨Value.scalar v, none⟩)] }

/-- C9 scenario: the first four of five rapid value-commit triggers, 100 ms
apart with a 300 ms debounce window. -/
def c9Init : List (Nat × WatcherState) :=
  [(0, c9s "v1"), (100, c9s "v2"), (200, c9s "v3"), (300, c9s "v4")]

/-- C10 witness state: one live baseline field x↦"A". -/
def c10State : WatcherState :=
  { emptyState with
      originalState := [("x", ⟨Value.scalar "A", none⟩)]
    , currentState := [("x", ⟨Value.scalar "A", none⟩)] }

/-! ### Basic facts about the map operations -/

theorem mget_eq_some_mem {l : List (String × Snapshot)} {k : String} {v : Snapshot}
    (h : mget l k = some v) : (k, v) ∈ l := by
  induction l with
  | nil => simp [mget] at h
  | cons p rest ih =>
    by_cases hk : p.1 = k
    · simp only [mget, if_pos hk, Option.some.injEq] at h
      subst h
      subst hk
      exact List.mem_cons_self p rest
    · simp only [mget, if_neg hk] at h
      exact List.mem_cons_of_mem _ (ih h)

theorem mem_mhas {l : List (String × Snapshot)} {k : String} {v : Snapshot}
    (h : (k, v) ∈ l) : mhas l k = true := by
  induction l with
  | nil => simp at h
  | cons p rest ih =>
    by_cases hk : p.1 = k
    · simp [mhas, mget, hk]
    · rcases List.mem_cons.mp h with heq | hmem
      · exact absurd (congrArg Prod.fst heq.symm) hk
      · simp [mhas, mget, hk]
        simpa [mhas] using ih hmem

theorem mget_eq_some_of_mem_nodup {l : List (String × Snapshot)} {k : String} {v : Snapshot}
    (hnd : (l.map Prod.fst).Nodup) (h : (k, v) ∈ l) : mget l k = some v := by
  induction l with
  | nil => simp at h
  | cons p rest ih =>
    rcases List.mem_cons.mp h with heq | hmem
    · rw [← heq]
      simp [mget]
    · have hnd2 := hnd
      rw [List.map_cons] at hnd2
      have hcons := List.nodup_cons.mp hnd2
      have hk : p.1 ≠ k := by
        intro hpk
        have hkeys : k ∈ rest.map Prod.fst := List.mem_map_of_mem Prod.fst hmem
        exact hcons.1 (hpk ▸ hkeys)
      simp only [mget, if_neg hk]
      exact ih hcons.2 hmem

theorem mhas_of_mhas_tail {l : List (String × Snapshot)} {p : String × Snapshot} {k : String}
    (h : mhas l k = true) : mhas (p :: l) k = true := by
  by_cases hk : p.1 = k <;> simp [mhas, mget, hk] <;> simpa [mhas] using h

theorem mset_eq_append {m : List (String × Snapshot)} {k : String} (v : Snapshot)
    (h : mhas m k = false) : mset m k v = m ++ [(k, v)] := by
  induction m with
  | nil => rfl
  | cons p rest ih =>
    by_cases hk : p.1 = k
    · simp [mhas, mget, hk] at h
    · simp only [mset, if_neg hk, List.cons_append, List.cons.injEq, true_and]
      exact ih (by simpa [mhas, mget, hk] using h)

theorem mhas_append (a b : List (String × Snapshot)) (k : String) :
    mhas (a ++ b) k = (mhas a k || mhas b k) := by
  induction a with
  | nil => simp [mhas, mget]
  | cons p rest ih =>
    by_cases hk : p.1 = k <;> simp [mhas, mget, hk] <;> simpa [mhas] using ih

theorem foldl_mset_fresh :
    ∀ (l acc : List (String × Snapshot)),
      (l.map Prod.fst).Nodup →
      (∀ k ∈ l.map Prod.fst, mhas acc k = false) →
      l.foldl (fun cur p => mset cur p.1 p.2) acc = acc ++ l := by
  intro l
  induction l with
  | nil => intro acc _ _; simp
  | cons p rest ih =>
    intro acc hnd hfresh
    have hhead : mhas acc p.1 = false := hfresh p.1 (by simp)
    have hnd2 := hnd
    rw [List.map_cons] at hnd2
    have hnd' := List.nodup_cons.mp hnd2
    have step : List.foldl (fun cur q => mset cur q.1 q.2) acc (p :: rest)
        = List.foldl (fun cur q => mset cur q.1 q.2) (mset acc p.1 p.2) rest := rfl
    rw [step, mset_eq_append p.2 hhead,
      ih (acc ++ [(p.1, p.2)]) hnd'.2 ?_, List.append_assoc]
    · simp
    · intro k hk
      rw [mhas_append]
      have h1 : mhas acc k = false := hfresh k (by simp [hk])
      have h2 : mhas [(p.1, p.2)] k = false := by
        have : p.1 ≠ k := fun hpk => hnd'.1 (hpk ▸ hk)
        simp [mhas, mget, this]
      simp [h1, h2]

theorem resetState_currentState {st : WatcherState}
    (h : (st.originalState.map Prod.fst).Nodup) :
    (resetState st).currentState = st.originalState := by
  show st.originalState.foldl (fun cur p => mset cur p.1 p.2) [] = st.originalState
  have := foldl_mset_fresh st.originalState [] h (fun k _ => rfl)
  simpa using this

theorem valuesAreEqual_refl (v : Value) : valuesAreEqual v v = true := by
  cases v with
  | scalar a => simp [valuesAreEqual]
  | seq l =>
    simp only [valuesAreEqual, beq_self_eq_true, Bool.true_and]
    induction l with
    | nil => rfl
    | cons a rest ih => simpa [List.zip_cons_cons] using ih

/-! ### Facts about the diff classification -/

theorem classifyLive_ids (orig rem : List (String × Snapshot)) :
    ∀ l : List (String × Snapshot),
      (∀ c ∈ (classifyLive orig rem l).added, mhas l c.id = true) ∧
      (∀ c ∈ (classifyLive orig rem l).reAdded, mhas l c.id = true) ∧
      (∀ c ∈ (classifyLive orig rem l).modified, mhas l c.id = true) := by
  intro l
  induction l with
  | nil => simp [classifyLive]
  | cons p rest ih =>
    obtain ⟨id, data⟩ := p
    have hhead : mhas ((id, data) :: rest) id = true := by simp [mhas, mget]
    refine ⟨?_, ?_, ?_⟩ <;> intro c hc
    · rcases horig : mget orig id with _ | originalData
      · rcases hrem : mget rem id with _ | removedData
        · simp only [classifyLive, horig, hrem, List.mem_cons] at hc
          rcases hc with hceq | hcmem
          · rw [hceq]; exact hhead
          · exact mhas_of_mhas_tail ((ih.1) c hcmem)
        · simp only [classifyLive, horig, hrem] at hc
          exact mhas_of_mhas_tail ((ih.1) c hc)
      · simp only [classifyLive, horig] at hc
        by_cases hchg : (!valuesAreEqual originalData.value data.value ||
            originalData.checked != data.checked) = true
        · simp only [if_pos hchg] at hc
          exact mhas_of_mhas_tail ((ih.1) c hc)
        · simp only [if_neg hchg] at hc
          exact mhas_of_mhas_tail ((ih.1) c hc)
    · rcases horig : mget orig id with _ | originalData
      · rcases hrem : mget rem id with _ | removedData
        · simp only [classifyLive, horig, hrem] at hc
          exact mhas_of_mhas_tail ((ih.2.1) c hc)
        · simp only [classifyLive, horig, hrem, List.mem_cons] at hc
          rcases hc with hceq | hcmem
          · rw [hceq]; exact hhead
          · exact mhas_of_mhas_tail ((ih.2.1) c hcmem)
      · simp only [classifyLive, horig] at hc
        by_cases hchg : (!valuesAreEqual originalData.value data.value ||
            originalData.checked != data.checked) = true
        · simp only [if_pos hchg] at hc
          exact mhas_of_mhas_tail ((ih.2.1) c hc)
        · simp only [if_neg hchg] at hc
          exact mhas_of_mhas_tail ((ih.2.1) c hc)
    · rcases horig : mget orig id with _ | originalData
      · rcases hrem : mget rem id with _ | removedData
        · simp only [classifyLive, horig, hrem] at hc
          exact mhas_of_mhas_tail ((ih.2.2) c hc)
        · simp only [classifyLive, horig, hrem] at hc
          exact mhas_of_mhas_tail ((ih.2.2) c hc)
      · simp only [classifyLive, horig] at hc
        by_cases hchg : (!valuesAreEqual originalData.value data.value ||
            originalData.checked != data.checked) = true
        · simp only [if_pos hchg, List.mem_cons] at hc
          rcases hc with hceq | hcmem
          · rw [hceq]; exact hhead
          · exact mhas_of_mhas_tail ((ih.2.2) c hcmem)
        · simp only [if_neg hchg] at hc
          exact mhas_of_mhas_tail ((ih.2.2) c hc)

theorem classifyLive_reAdded_mem (orig rem : List (String × Snapshot))
    {id : String} {data prev : Snapshot} :
    ∀ l : List (String × Snapshot), (id, data) ∈ l →
      mget orig id = none → mget rem id = some prev →
      (⟨id, data.value, data.checked, prev.value, prev.checked⟩ : ReAddedChange)
        ∈ (classifyLive orig rem l).reAdded := by
  intro l
  induction l with
  | nil => intro h; simp at h
  | cons p rest ih =>
    intro hmem horig hrem
    obtain ⟨pid, pdata⟩ := p
    rcases List.mem_cons.mp hmem with heq | htail
    · obtain ⟨h1, h2⟩ := Prod.mk.injEq .. ▸ heq.symm
      · subst h1; subst h2
        simp [classifyLive, horig, hrem]
    · have htl := ih htail horig hrem
      rcases horig2 : mget orig pid with _ | originalData
      · rcases hrem2 : mget rem pid with _ | removedData
        · simpa [classifyLive, horig2, hrem2] using htl
        · simp only [classifyLive, horig2, hrem2]
          exact List.mem_cons_of_mem _ htl
      · simp only [classifyLive, horig2]
        split <;> simpa using htl

theorem removedList_mem (cur : List (String × Snapshot)) {id : String} {snap : Snapshot} :
    ∀ l : List (String × Snapshot), (id, snap) ∈ l → mhas cur id = false →
      (⟨id, snap.value, snap.checked⟩ : FieldChange) ∈ removedList cur l := by
  intro l
  induction l with
  | nil => intro h; simp at h
  | cons p rest ih =>
    intro hmem hnot
    obtain ⟨pid, pdata⟩ := p
    rcases List.mem_cons.mp hmem with heq | htail
    · obtain ⟨h1, h2⟩ := Prod.mk.injEq .. ▸ heq.symm
      subst h1; subst h2
      simp [removedList, hnot]
    · have htl := ih htail hnot
      by_cases hhas : mhas cur pid = true
      · simpa [removedList, hhas] using htl
      · rw [Bool.not_eq_true] at hhas
        simp only [removedList, hhas]
        simp only [Bool.false_eq_true, if_false]
        exact List.mem_cons_of_mem _ htl

theorem removedList_not_mhas (cur : List (String × Snapshot)) :
    ∀ l : List (String × Snapshot), ∀ c ∈ removedList cur l, mhas cur c.id = false := by
  intro l
  induction l with
  | nil => simp [removedList]
  | cons p rest ih =>
    intro c hc
    obtain ⟨pid, pdata⟩ := p
    by_cases hhas : mhas cur pid = true
    · exact ih c (by simpa [removedList, hhas] using hc)
    · rw [Bool.not_eq_true] at hhas
      simp only [removedList, hhas, Bool.false_eq_true, if_false, List.mem_cons] at hc
      rcases hc with hceq | hcmem
      · rw [hceq]; exact hhas
      · exact ih c hcmem

/-! ### Claims -/

/-- Claim C1 (code bug): `resetState` is documented (README: "Resets the
original state to match the current state", "Current state becomes the new
baseline") and specified as replacing the baseline map with a copy of the
live map, leaving the live and removed maps alone.  Evaluating the code at a
state with baseline x↦"A", live x↦"B", removed y↦"C" shows the code does the
opposite: the baseline map is left unchanged and the live map is overwritten
with a copy of the baseline, while the removed map is indeed untouched. -/
theorem C1_resetState_direction_eval :
    (resetState c1State).originalState = [("x", ⟨Value.scalar "A", none⟩)] ∧
    (resetState c1State).currentState = [("x", ⟨Value.scalar "A", none⟩)] ∧
    (resetState c1State).removedFields = [("y", ⟨Value.scalar "C", none⟩)] := by
  decide

/-- Claim C2 counterexample: in the spec's own re-added scenario (baseline
text field x="A", removed, re-inserted with value "B") the claim asserts
`getChanges().reAdded` contains `{id:"x", value:"B", previousValue:"A"}`.
The code classifies the field as `modified` (its id is still present in the
baseline map, and the `reAdded` branch only applies to ids absent from the
baseline): `reAdded` is empty. -/
theorem C2_readded_claim_counterexample :
    (getChanges c2StRemoved).removed = [⟨"x", Value.scalar "A", none⟩] ∧
    checkForChanges c2StReB = true ∧
    (getChanges c2StReB).reAdded = [] ∧
    (getChanges c2StReB).modified
      = [⟨"x", ⟨Value.scalar "A", none⟩, ⟨Value.scalar "B", none⟩⟩] := by
  decide

/-- Claim C2 as amended: after the removal, `removed` contains id "x" with
value "A"; after re-inserting an element resolving to the same id with value
"B", the field appears in `modified` (original "A", current "B") — not in
`reAdded`, which only covers ids absent from the baseline — and
`checkForChanges()` returns true; re-inserting with value "A" instead makes
`checkForChanges()` return false, and `reAdded` contains no entry for "x". -/
theorem C2_baseline_remove_reinsert_scenario :
    (getChanges c2StRemoved).removed = [⟨"x", Value.scalar "A", none⟩] ∧
    (getChanges c2StReB).modified
      = [⟨"x", ⟨Value.scalar "A", none⟩, ⟨Value.scalar "B", none⟩⟩] ∧
    (getChanges c2StReB).reAdded = [] ∧
    checkForChanges c2StReB = true ∧
    checkForChanges c2StReA = false ∧
    (getChanges c2StReA).reAdded = [] ∧
    (getChanges c2StReA).modified = [] := by
  decide

/-- Claim C3 counterexample: id "x" is in both the live and the removed map
with identical snapshots and absent from the baseline.  The claim says such
an id produces no record in `getChanges().reAdded`; in fact `getChanges`
records every re-added id unconditionally (no equality test on that path,
`src/index.js:269-273`), while `checkForChanges` reports no change. -/
theorem C3_equal_readded_counterexample :
    checkForChanges c3State = false ∧
    (getChanges c3State).reAdded
      = [⟨"x", Value.scalar "A", none, Value.scalar "A", none⟩] := by
  decide

/-- Claim C3 as amended: for every id present in both the live and the
removed map, absent from the baseline, with current snapshot equal to its
removed snapshot (values equal under the shared rule, `checked` identical),
the id contributes no change to `checkForChanges`, but `getChanges` still
records it in `reAdded` — the two entry points classify such a field
differently. -/
theorem C3_equal_readded_classification (st : WatcherState) (id : String)
    (cur prev : Snapshot)
    (hlive : mget st.currentState id = some cur)
    (hbase : mget st.originalState id = none)
    (hrem : mget st.removedFields id = some prev)
    (hval : valuesAreEqual prev.value cur.value = true)
    (hch : prev.checked = cur.checked) :
    liveEntryChanged st (id, cur) = false ∧
    (⟨id, cur.value, cur.checked, prev.value, prev.checked⟩ : ReAddedChange)
      ∈ (getChanges st).reAdded := by
  constructor
  · simp only [liveEntryChanged, hbase, hrem, hval, hch]
    simp
  · have hmem : (id, cur) ∈ st.currentState := mget_eq_some_mem hlive
    have := classifyLive_reAdded_mem st.originalState st.removedFields
      st.currentState hmem hbase hrem
    simpa [getChanges] using this

/-- Witness for C3: the amended classification at the concrete state
`c3State`. -/
theorem C3_equal_readded_classification_witness :
    liveEntryChanged c3State ("x", ⟨Value.scalar "A", none⟩) = false ∧
    (⟨"x", Value.scalar "A", none, Value.scalar "A", none⟩ : ReAddedChange)
      ∈ (getChanges c3State).reAdded :=
  C3_equal_readded_classification c3State "x" ⟨Value.scalar "A", none⟩
    ⟨Value.scalar "A", none⟩ (by decide) (by decide) (by decide) (by decide) (by decide)

/-- Claim C4 counterexample: when the target resolves to nothing the
constructor indeed reports and attaches no listeners or observer, but the
three state maps are never assigned, so every later public method call
throws a `TypeError` instead of being a no-op or returning an inert
default. -/
theorem C4_inert_methods_counterexample :
    (construct none [] []).eventListenersAttached = false ∧
    (construct none [] []).mutationObserverAttached = false ∧
    completedOk (checkForChangesJS (construct none [] []).watcher) = false ∧
    completedOk (getChangesJS (construct none [] []).watcher) = false ∧
    completedOk (resetStateJS (construct none [] []).watcher) = false := by
  decide

/-- Claim C4 as amended: if the construction target cannot be resolved,
construction reports the condition (non-fatally, without throwing) and
attaches neither listeners nor observer; but because the maps stay
uninitialized, each of `checkForChanges`, `getChanges` and `resetState`
afterwards throws a `TypeError` rather than being a no-op. -/
theorem C4_inert_instance :
    (construct none [] []).errorReported = true ∧
    (construct none [] []).watcher = Instance.inert ∧
    (construct none [] []).eventListenersAttached = false ∧
    (construct none [] []).mutationObserverAttached = false ∧
    checkForChangesJS (construct none [] []).watcher
      = Except.error "TypeError: this.currentState is not iterable" ∧
    getChangesJS (construct none [] []).watcher
      = Except.error "TypeError: this.currentState is not iterable" ∧
    resetStateJS (construct none [] []).watcher
      = Except.error "TypeError: cannot read clear of undefined" :=
  ⟨rfl, rfl, rfl, rfl, rfl, rfl, rfl⟩

/-- Claim C5 (code bug): the MutationObserver insertion path
(`src/index.js:159-167`) goes straight to `updateCurrentState` and never
writes `lastEvent`, so nothing is "cleared to none".  Evaluating the code:
after a user input event (#7) on field x, a structural insertion of field y
leaves `lastEvent = some 7`, and the diff callback triggered by that
insertion receives the stale event #7 — not none, as the claim (and the
README, which documents a null event for MutationObserver-detected changes)
requires. -/
theorem C5_observer_keeps_stale_event_eval :
    (handleInputEvent c5St0 7 (mkTextField "x" "hello")).lastEvent = some 7 ∧
    c5After.lastEvent = some 7 ∧
    (callbackArgs c5After).2.2 = some 7 := by
  decide

/-- Claim C6 (confirmed): from any tracker state whose baseline map has
duplicate-free keys (every JS `Map` does), `resetState()` followed by
`checkForChanges()` with no mutation in between returns false: the live map
becomes an entry-wise copy of the baseline, so no live entry differs and no
baseline id is missing. -/
theorem C6_reset_then_check_false (st : WatcherState)
    (h : (st.originalState.map Prod.fst).Nodup) :
    checkForChanges (resetState st) = false := by
  have hcur : (resetState st).currentState = st.originalState := resetState_currentState h
  have horig : (resetState st).originalState = st.originalState := rfl
  simp only [checkForChanges, hcur, horig, Bool.or_eq_false_iff]
  constructor
  · rw [List.any_eq_false]
    intro p hp
    have hget : mget st.originalState p.1 = some p.2 := by
      have : (p.1, p.2) ∈ st.originalState := by simpa using hp
      exact mget_eq_some_of_mem_nodup h this
    simp [liveEntryChanged, horig, hget, valuesAreEqual_refl]
  · rw [List.any_eq_false]
    intro p hp
    have : mhas st.originalState p.1 = true :=
      mem_mhas (show (p.1, p.2) ∈ st.originalState by simpa using hp)
    simp [this]

/-- Witness for C6: the round trip at the concrete state `c6State`. -/
theorem C6_reset_then_check_false_witness :
    (c6State.originalState.map Prod.fst).Nodup ∧
    checkForChanges (resetState c6State) = false :=
  ⟨by decide, C6_reset_then_check_false c6State (by decide)⟩

/-- `valuesAreEqual` on two sequences is exactly list equality. -/
theorem valuesAreEqual_seq_iff (l1 l2 : List String) :
    valuesAreEqual (.seq l1) (.seq l2) = true ↔ l1 = l2 := by
  induction l1 generalizing l2 with
  | nil => cases l2 <;> simp [valuesAreEqual]
  | cons a rest ih =>
    cases l2 with
    | nil => simp [valuesAreEqual]
    | cons b l2rest =>
      have hih := ih l2rest
      simp only [valuesAreEqual, Bool.and_eq_true, beq_iff_eq] at hih ⊢
      simp only [List.zip_cons_cons, List.all_cons, List.length_cons,
        Nat.add_right_cancel_iff, Bool.and_eq_true, beq_iff_eq, List.cons.injEq]
      constructor
      · rintro ⟨hlen, hab, hall⟩
        exact ⟨hab, hih.mp ⟨hlen, hall⟩⟩
      · rintro ⟨hab, hrest⟩
        rcases hih.mpr hrest with ⟨hlen, hall⟩
        exact ⟨hlen, hab, hall⟩

/-- The spec's sequence clause is also exactly list equality. -/
theorem valueEqSpec_seq_iff (l1 l2 : List String) :
    valueEqSpec (.seq l1) (.seq l2) ↔ l1 = l2 := by
  rw [valueEqSpec]
  exact List.ext_get_iff.symm

/-- Claim C7 (confirmed): the shared snapshot equality — `valuesAreEqual` on
the values plus identity comparison of `checked` — holds iff both values are
sequences of equal length with pairwise-equal elements or both are scalars
and equal, with `checked` identical (including both absent); and on concrete
multi-select data, `["a","b"]` vs `["b","a"]` are not equal while
`["a","b"]` vs `["a","b"]` are. -/
theorem C7_shared_equality_rule :
    (∀ s1 s2 : Snapshot,
      (valuesAreEqual s1.value s2.value = true ∧ s1.checked = s2.checked) ↔
        (valueEqSpec s1.value s2.value ∧ s1.checked = s2.checked)) ∧
    valuesAreEqual (.seq ["a", "b"]) (.seq ["b", "a"]) = false ∧
    valuesAreEqual (.seq ["a", "b"]) (.seq ["a", "b"]) = true := by
  refine ⟨?_, by decide, by decide⟩
  intro s1 s2
  have hmain : valuesAreEqual s1.value s2.value = true ↔ valueEqSpec s1.value s2.value := by
    cases h1 : s1.value with
    | scalar a =>
      cases h2 : s2.value with
      | scalar b => simp [valuesAreEqual, valueEqSpec]
      | seq l2 => simp [valuesAreEqual, valueEqSpec]
    | seq l1 =>
      cases h2 : s2.value with
      | scalar b => simp [valuesAreEqual, valueEqSpec]
      | seq l2 => rw [valuesAreEqual_seq_iff, valueEqSpec_seq_iff]
  rw [hmain]

/-- Claim C8 (confirmed): every baseline binding whose id is absent from the
live map yields its entry in `getChanges().removed`, and an id occurring in
`removed` occurs in none of `added`, `modified`, `reAdded` (those three only
list ids present in the live map, while `removed` only lists ids absent from
it). -/
theorem C8_removed_symmetry (st : WatcherState) :
    (∀ id snap, mget st.originalState id = some snap → mhas st.currentState id = false →
      (⟨id, snap.value, snap.checked⟩ : FieldChange) ∈ (getChanges st).removed) ∧
    (∀ c ∈ (getChanges st).removed,
      (∀ c2 ∈ (getChanges st).added, c2.id ≠ c.id) ∧
      (∀ c2 ∈ (getChanges st).modified, c2.id ≠ c.id) ∧
      (∀ c2 ∈ (getChanges st).reAdded, c2.id ≠ c.id)) := by
  constructor
  · intro id snap hget hnot
    have hmem : (id, snap) ∈ st.originalState := mget_eq_some_mem hget
    have := removedList_mem st.currentState st.originalState hmem hnot
    simpa [getChanges] using this
  · intro c hc
    have hcnot : mhas st.currentState c.id = false :=
      removedList_not_mhas st.currentState st.originalState c (by simpa [getChanges] using hc)
    have hids := classifyLive_ids st.originalState st.removedFields st.currentState
    refine ⟨?_, ?_, ?_⟩ <;> intro c2 hc2 heq
    · have : mhas st.currentState c2.id = true :=
        hids.1 c2 (by simpa [getChanges] using hc2)
      rw [heq, hcnot] at this
      exact Bool.false_ne_true this
    · have : mhas st.currentState c2.id = true :=
        hids.2.2 c2 (by simpa [getChanges] using hc2)
      rw [heq, hcnot] at this
      exact Bool.false_ne_true this
    · have : mhas st.currentState c2.id = true :=
        hids.2.1 c2 (by simpa [getChanges] using hc2)
      rw [heq, hcnot] at this
      exact Bool.false_ne_true this

/-- Witness for C8 at the concrete state `c8State`: x (baseline-only) lands
in `removed` and its id avoids the other three categories. -/
theorem C8_removed_symmetry_witness :
    mget c8State.originalState "x" = some ⟨Value.scalar "A", none⟩ ∧
    mhas c8State.currentState "x" = false ∧
    (⟨"x", Value.scalar "A", none⟩ : FieldChange) ∈ (getChanges c8State).removed :=
  ⟨by decide, by decide,
    (C8_removed_symmetry c8State).1 "x" ⟨Value.scalar "A", none⟩ (by decide) (by decide)⟩

/-- Claim C9 (confirmed): with every trigger falling strictly inside the
debounce window opened by the previous one, the whole burst collapses to a
single execution of the wrapped diff, scheduled `delay` ms after the last
trigger and reading the state as of that last trigger (each earlier pending
timeout is cancelled and rescheduled by the next trigger). -/
theorem C9_debounce_collapse (delay : Nat) (evs : List (Nat × WatcherState))
    (t : Nat) (s : WatcherState)
    (h : gapsWithin delay (evs ++ [(t, s)]) = true) :
    debounceExec delay (evs ++ [(t, s)]) = [(t + delay, s)] := by
  induction evs with
  | nil => rfl
  | cons a evs2 ih =>
    obtain ⟨t1, s1⟩ := a
    cases evs2 with
    | nil =>
      have hlt : t < t1 + delay := by
        simpa [gapsWithin] using h
      simp [debounceExec, Nat.not_le.mpr hlt]
    | cons b evs3 =>
      obtain ⟨t2, s2⟩ := b
      have hlt : t2 < t1 + delay := by
        have := h
        simp only [List.cons_append, gapsWithin, Bool.and_eq_true, decide_eq_true_eq] at this
        exact this.1
      have htail : gapsWithin delay (((t2, s2) :: evs3) ++ [(t, s)]) = true := by
        have := h
        simp only [List.cons_append, gapsWithin, Bool.and_eq_true, decide_eq_true_eq] at this
        simp only [List.cons_append, gapsWithin]
        rcases evs3 with - | ⟨c, evs4⟩
        · simpa using this.2
        · simpa using this.2
      have := ih htail
      simp only [List.cons_append] at this ⊢
      rw [debounceExec, if_neg (Nat.not_le.mpr hlt)]
      simpa using this

/-- Witness for C9: five rapid value-commit triggers, 100 ms apart, with a
300 ms debounce window, collapse to one diff at t = 700 reading the state of
the fifth trigger. -/
theorem C9_debounce_collapse_witness :
    gapsWithin 300 (c9Init ++ [(400, c9s "v5")]) = true ∧
    debounceExec 300 (c9Init ++ [(400, c9s "v5")]) = [(700, c9s "v5")] :=
  ⟨by decide, C9_debounce_collapse 300 c9Init 400 (c9s "v5") (by decide)⟩

/-- Claim C10 (confirmed): the structural-removal handler moves an entry
into the removed map exactly when the removed field's resolved id is
non-empty and present in the live map; the entry stored is the live
snapshot itself (so every removed-map binding is a snapshot that was live at
its removal time), the live binding is deleted, the baseline is untouched;
with an empty or non-live id the whole state is left unchanged. -/
theorem C10_removal_moves_live_snapshot (st : WatcherState) (f : Field) :
    (isExcluded st.excludeSelectors f = false → getFieldId f ≠ "" →
      ∀ snap, mget st.currentState (getFieldId f) = some snap →
        (handleRemovedField st f).removedFields = mset st.removedFields (getFieldId f) snap ∧
        (handleRemovedField st f).currentState = mdel st.currentState (getFieldId f) ∧
        (handleRemovedField st f).originalState = st.originalState) ∧
    ((getFieldId f = "" ∨ mget st.currentState (getFieldId f) = none) →
      handleRemovedField st f = st) := by
  constructor
  · intro hex hid snap hget
    simp only [handleRemovedField, hex, Bool.false_eq_true, if_false, if_neg hid, hget]
    exact ⟨trivial, trivial, trivial⟩
  · intro hcase
    cases hex : isExcluded st.excludeSelectors f with
    | true => simp [handleRemovedField, hex]
    | false =>
      rcases hcase with hid | hget
      · simp [handleRemovedField, hex, hid]
      · by_cases hid : getFieldId f = ""
        · simp [handleRemovedField, hex, hid]
        · simp [handleRemovedField, hex, hid, hget]

/-- Witness for C10: removing the live field x from `c10State` moves its
snapshot into the removed map. -/
theorem C10_removal_moves_live_snapshot_witness :
    isExcluded c10State.excludeSelectors (mkTextField "x" "A") = false ∧
    (handleRemovedField c10State (mkTextField "x" "A")).removedFields
      = mset c10State.removedFields (getFieldId (mkTextField "x" "A"))
          ⟨Value.scalar "A", none⟩ :=
  ⟨by decide,
    ((C10_removal_moves_live_snapshot c10State (mkTextField "x" "A")).1
      (by decide) (by decide) ⟨Value.scalar "A", none⟩ (by decide)).1⟩

end FormWatcher
